import Mathlib

/-!
Shallow embedding of the RAG demo service (sources: `api_rag_fastapi.py`,
`chunk.py`, `chunk_embedding_qadrant_v2.py`, `embeddig.py`, `qadrant_loader.py`),
together with theorems checking the natural-language specification against it.

Conventions of the embedding:
* Python dictionaries with a fixed shape become Lean structures; a key whose
  presence is checked with `dict.get` becomes an `Option` field read with `getD`.
* Floating-point similarity scores and thresholds become rationals (`ℚ`).
* External collaborators (the embedding model, the vector index, the LLM HTTP
  endpoint) are modelled by explicit function parameters, following the
  contracts the specification states for them.
* Python functions that can raise are modelled as total functions into an
  outcome type (`ApiOutcome`, `Option`).
-/

namespace RagDemo

/-! ## Data model of the structured corpus (chapters → sections) -/

/-- The `metadata` sub-record of a section in the structured JSON
(`word_count` and `key_terms`, as read by `extract_chunks_from_json`). -/
structure SectionMeta where
  word_count : Nat
  key_terms : List String
deriving Repr, DecidableEq

/-- A section of the structured JSON. `section_title` is optional: Python code
checks it with the falsiness test `not section.get('section_title')`, which is
true both when the key is missing and when the title is the empty string. -/
structure Section where
  section_type : String
  section_title : Option String
  content : String
  metadata : SectionMeta
deriving Repr, DecidableEq

/-- A chapter: number, title, ordered sections. -/
structure Chapter where
  chapter_number : Nat
  chapter_title : String
  sections : List Section
deriving Repr, DecidableEq

/-- The whole structured document (`data['document']`). -/
structure Document where
  title : String
  chapters : List Chapter
deriving Repr, DecidableEq

/-- Python falsiness of `section.get('section_title')`: missing or empty. -/
def title_missing (t : Option String) : Bool :=
  (t.getD "").isEmpty

/-- Embedding of `" ".join(section['content'].split()[:4])` from `load_and_improve_json_data`
(`chunk.py` line 25): Python `str.split()` splits on whitespace runs and drops
empty pieces; the first four words are joined with single spaces. -/
def first_words (content : String) : String :=
  String.intercalate " "
    (((content.split Char.isWhitespace).filter (fun w => !w.isEmpty)).take 4)

/-- The per-section title-backfill step of `load_and_improve_json_data`
(`chunk.py` lines 21-27): a section with a falsy title whose type is not
`"main_content"` gets the first four words of its content followed by `"..."`. -/
def improve_section (s : Section) : Section :=
  if title_missing s.section_title && (s.section_type != "main_content") then
    { s with section_title := some (first_words s.content ++ "...") }
  else s

/-- The data-improvement pass of `load_and_improve_json_data` (`chunk.py`
lines 21-27), applied to an already-parsed document: every section of every
chapter goes through `improve_section`. File I/O and JSON parsing are outside
the embedding; a parse failure returns `None` in Python and never reaches
`extract_chunks_from_json` with a document in hand. -/
def load_and_improve_json_data (d : Document) : Document :=
  { d with chapters := d.chapters.map (fun ch =>
      { ch with sections := ch.sections.map improve_section }) }

/-! ## The chunks produced by `extract_chunks_from_json` -/

/-- The denormalized metadata record of a chunk (`chunk.py` lines 49-58). -/
structure ChunkMeta where
  chapter_number : Nat
  chapter_title : String
  section_type : String
  section_title : String
  word_count : Nat
  key_terms : List String
  document_title : String
  content_preview : String
deriving Repr, DecidableEq

/-- A chunk: content plus denormalized metadata (`chunk.py` lines 47-59). -/
structure Chunk where
  content : String
  metadata : ChunkMeta
deriving Repr, DecidableEq

/-- Embedding of `section['content'][:100] + "..." if len(section['content']) > 100 else
section['content']` (`chunk.py` line 57). Python slices count characters, as
does `String.take`. -/
def content_preview (content : String) : String :=
  if content.length > 100 then content.take 100 ++ "..." else content

/-- The body of the inner loop of `extract_chunks_from_json` (`chunk.py`
lines 42-60): the section title is read with default `''`; when falsy and the
section type is `"main_content"` it becomes `"Introducción - "` plus the
chapter title. -/
def chunk_of_section (document_title : String) (ch : Chapter) (s : Section) : Chunk :=
  let base_title := s.section_title.getD ""
  let section_title :=
    if base_title.isEmpty && (s.section_type == "main_content") then
      "Introducción - " ++ ch.chapter_title
    else base_title
  { content := s.content
    metadata :=
      { chapter_number := ch.chapter_number
        chapter_title := ch.chapter_title
        section_type := s.section_type
        section_title := section_title
        word_count := s.metadata.word_count
        key_terms := s.metadata.key_terms
        document_title := document_title
        content_preview := content_preview s.content } }

/-- Embedding of `extract_chunks_from_json` (`chunk.py` lines 33-62): chapters in order,
sections within each chapter in order, one chunk per section. -/
def extract_chunks_from_json (d : Document) : List Chunk :=
  d.chapters.flatMap (fun ch => ch.sections.map (chunk_of_section d.title ch))

/-- The `flatten` operation of the specification: the pipeline used by
`get_chunks` (`chunk.py` lines 64-72), improvement pass followed by chunk
extraction. -/
def flatten (d : Document) : List Chunk :=
  extract_chunks_from_json (load_and_improve_json_data d)

/-! ## Specification-side restatement of the title rule (for refinement) -/

/-- The title rule as the specification words it: an explicit (truthy) title is
kept; a missing title becomes `"Introducción - "` plus the chapter title for
`"main_content"` sections, and the first four words of the content plus
`"..."` for any other type. -/
def spec_section_title (ch : Chapter) (s : Section) : String :=
  if title_missing s.section_title then
    if s.section_type == "main_content" then "Introducción - " ++ ch.chapter_title
    else first_words s.content ++ "..."
  else s.section_title.getD ""

/-- The chunk the specification predicts for one section. -/
def spec_chunk (document_title : String) (ch : Chapter) (s : Section) : Chunk :=
  { content := s.content
    metadata :=
      { chapter_number := ch.chapter_number
        chapter_title := ch.chapter_title
        section_type := s.section_type
        section_title := spec_section_title ch s
        word_count := s.metadata.word_count
        key_terms := s.metadata.key_terms
        document_title := document_title
        content_preview := content_preview s.content } }

/-- The flattening the specification predicts: document order, one chunk per
section, titles per `spec_section_title`. -/
def spec_flatten (d : Document) : List Chunk :=
  d.chapters.flatMap (fun ch => ch.sections.map (spec_chunk d.title ch))

/-! ## Helper lemmas about strings -/

lemma eq_empty_of_length_zero (s : String) (h : s.length = 0) : s = "" :=
  String.ext (List.eq_nil_of_length_eq_zero h)

lemma append_ne_empty_right (a b : String) (h : b ≠ "") : a ++ b ≠ "" := by
  intro hab
  apply h
  have hlen : a.length + b.length = 0 := by
    simpa [String.length_append] using congrArg String.length hab
  exact eq_empty_of_length_zero b (by omega)

lemma append_ne_empty_left (a b : String) (h : a ≠ "") : a ++ b ≠ "" := by
  intro hab
  apply h
  have hlen : a.length + b.length = 0 := by
    simpa [String.length_append] using congrArg String.length hab
  exact eq_empty_of_length_zero a (by omega)

lemma isEmpty_false_iff (s : String) : s.isEmpty = false ↔ s ≠ "" := by
  constructor
  · intro h he
    subst he
    exact absurd h (by decide)
  · intro h
    cases he : s.isEmpty with
    | false => rfl
    | true => exact absurd ((String.isEmpty_iff s).mp he) h

/-- The improved section fed to `chunk_of_section` produces exactly the chunk
the specification predicts for the original section. -/
lemma chunk_of_improve (document_title : String) (ch ch' : Chapter)
    (hnum : ch'.chapter_number = ch.chapter_number)
    (htitle : ch'.chapter_title = ch.chapter_title) (s : Section) :
    chunk_of_section document_title ch' (improve_section s) =
      spec_chunk document_title ch s := by
  unfold improve_section chunk_of_section spec_chunk spec_section_title title_missing
  cases hmiss : (s.section_title.getD "").isEmpty with
  | true =>
    by_cases hmain : s.section_type = "main_content"
    · simp [hmiss, hmain, hnum, htitle]
    · have hne : first_words s.content ++ "..." ≠ "" :=
        append_ne_empty_right _ _ (by decide)
      simp [hmiss, hmain, hnum, htitle, (isEmpty_false_iff _).mpr hne]
  | false =>
    simp [hmiss, hnum, htitle]

/-- One improved chapter yields exactly the chunks the specification predicts
for the original chapter. -/
lemma improve_chapter_chunks (document_title : String) (ch : Chapter) :
    (ch.sections.map improve_section).map
        (chunk_of_section document_title
          { ch with sections := ch.sections.map improve_section }) =
      ch.sections.map (spec_chunk document_title ch) := by
  rw [List.map_map]
  exact List.map_congr_left (fun s _ => chunk_of_improve document_title ch _ rfl rfl s)

/-- The source pipeline equals the specification-side flattening. -/
lemma flatten_eq_spec (d : Document) : flatten d = spec_flatten d := by
  show (d.chapters.map _).flatMap _ = d.chapters.flatMap _
  induction d.chapters with
  | nil => rfl
  | cons ch rest ih =>
    simp only [List.map_cons, List.flatMap_cons]
    rw [ih]
    congr 1
    exact improve_chapter_chunks d.title ch

/-! ## Retrieval service (`api_rag_fastapi.py`) -/

/-- The payload stored with each point in the vector index (as uploaded by the
ingestion scripts). Fields are optional because `search_documents` reads each
one with `payload.get(key, default)`. -/
structure Payload where
  content : Option String
  chapter_title : Option String
  section_title : Option String
  section_type : Option String
  word_count : Option Nat
  key_terms : Option (List String)
  chapter_number : Option Nat
  document_title : Option String
deriving Repr, DecidableEq

/-- The `metadata` sub-dictionary built by `search_documents`
(`api_rag_fastapi.py` lines 122-128). -/
structure SearchMeta where
  section_type : String
  word_count : Nat
  key_terms : List String
  chapter_number : Nat
  document_title : String
deriving Repr, DecidableEq

/-- One formatted search result (`api_rag_fastapi.py` lines 117-129, matching
the `SearchResult` Pydantic model). -/
structure FormattedResult where
  score : ℚ
  content : String
  chapter_title : String
  section_title : String
  metadata : SearchMeta
deriving Repr, DecidableEq

/-- The formatting of one index point into a result dictionary
(`api_rag_fastapi.py` lines 116-129), with the same `get` defaults. -/
def format_result (score : ℚ) (p : Payload) : FormattedResult :=
  { score := score
    content := p.content.getD ""
    chapter_title := p.chapter_title.getD ""
    section_title := p.section_title.getD "Sección sin título"
    metadata :=
      { section_type := p.section_type.getD ""
        word_count := p.word_count.getD 0
        key_terms := p.key_terms.getD []
        chapter_number := p.chapter_number.getD 0
        document_title := p.document_title.getD "" } }

/-- Model of the external vector index `query_points` call, following the
contract the specification states for it (§4.3): score every stored payload
against the query, return them in descending score order, at most `limit` of
them. The scoring function abstracts the composition of the query embedding
and the index's similarity computation. -/
def query_points (score : Payload → ℚ) (stored : List Payload) (limit : Nat) :
    List (ℚ × Payload) :=
  ((stored.map (fun p => (score p, p))).insertionSort (fun a b => a.1 ≥ b.1)).take limit

/-- Embedding of `search_documents` (`api_rag_fastapi.py` lines 98-131): query the index,
format each returned point. -/
def search_documents (score : Payload → ℚ) (stored : List Payload) (limit : Nat) :
    List FormattedResult :=
  (query_points score stored limit).map (fun sp => format_result sp.1 sp.2)

/-- The threshold filter shared by `/query` and `/search`
(`api_rag_fastapi.py` lines 281-286 and 355-357): only applied when
`score_threshold > 0`, and then it keeps results with `score >= threshold`. -/
def apply_score_threshold (score_threshold : ℚ) (results : List FormattedResult) :
    List FormattedResult :=
  if score_threshold > 0 then
    results.filter (fun r => r.score ≥ score_threshold)
  else results

/-- The `retrieve` operation of the specification (§4.4): embed and query
(`search_documents`), then threshold-filter, as in `rag_query`
(`api_rag_fastapi.py` lines 273-286). -/
def retrieve (score : Payload → ℚ) (stored : List Payload) (limit : Nat)
    (score_threshold : ℚ) : List FormattedResult :=
  apply_score_threshold score_threshold (search_documents score stored limit)

/-! ## API endpoint outcomes -/

/-- Outcome of an endpoint: a successful value, or an `HTTPException` with a
status code and a detail message. -/
inductive ApiOutcome (α : Type) where
  | ok (value : α)
  | httpError (status_code : Nat) (detail : String)
deriving Repr, DecidableEq

/-- The HTTP status an outcome is served with (FastAPI serves a plain return
as 200). -/
def ApiOutcome.status {α : Type} : ApiOutcome α → Nat
  | .ok _ => 200
  | .httpError code _ => code

/-- The result-set handling of the `/query` endpoint (`api_rag_fastapi.py`
lines 273-314): 404 when the search returned nothing, threshold filter, 404
when nothing survives, otherwise a successful response carrying the optional
LLM answer and the surviving results (of which the first is `top_result`).
The answer is a parameter: its computation is `generate_llm_answer` below. -/
def rag_query (search_results_data : List FormattedResult) (score_threshold : ℚ)
    (answer : Option String) : ApiOutcome (Option String × List FormattedResult) :=
  if search_results_data.isEmpty then
    .httpError 404 "No se encontraron resultados relevantes para la consulta"
  else if (apply_score_threshold score_threshold search_results_data).isEmpty then
    .httpError 404 ("No se encontraron resultados con score >= " ++ toString score_threshold)
  else
    .ok (answer, apply_score_threshold score_threshold search_results_data)

/-- The result-set handling of the `/search` endpoint (`api_rag_fastapi.py`
lines 344-371): same shape without the LLM answer. -/
def search_only (results : List FormattedResult) (score_threshold : ℚ) :
    ApiOutcome (List FormattedResult) :=
  if results.isEmpty then
    .httpError 404 "No se encontraron resultados relevantes"
  else if (apply_score_threshold score_threshold results).isEmpty then
    .httpError 404 ("No se encontraron resultados con score >= " ++ toString score_threshold)
  else
    .ok (apply_score_threshold score_threshold results)

/-! ## LLM answer generation (`generate_llm_answer`) -/

/-- Embedding of `"\n\n".join([chunk['content'] for chunk in context_chunks])`
(`api_rag_fastapi.py` line 143). -/
def build_llm_context (context_chunks : List FormattedResult) : String :=
  String.intercalate "\n\n" (context_chunks.map (fun chunk => chunk.content))

/-- The fixed prompt text before the context block (`api_rag_fastapi.py`
lines 146-149). -/
def prompt_header : String :=
  "\n        Eres un asistente especializado en cambio climático. Responde la pregunta del usuario basándote ÚNICAMENTE en el contexto proporcionado.\n\n        CONTEXTO:\n        "

/-- The fixed prompt text between the context block and the question
(`api_rag_fastapi.py` line 152). -/
def prompt_question_label : String := "\n\n        PREGUNTA: "

/-- The fixed instruction template after the question (`api_rag_fastapi.py`
lines 154-163): same-language response, grounded-only, at most 200 words,
explicit insufficient-information fallback phrase, no fabrication. -/
def prompt_instructions : String :=
  "\n\n        INSTRUCCIONES CRÍTICAS:\n        - Responde en el MISMO IDIOMA que la pregunta\n        - Usa ÚNICAMENTE información del contexto proporcionado\n        - Sé conciso y preciso (máximo 200 palabras)\n        - Si el contexto no contiene información relevante, di específicamente \"No encontré información suficiente en la base de conocimiento para responder esta pregunta\"\n        - No inventes información ni cites fuentes externas\n        - Si el contexto está en inglés pero la pregunta en español, traduce la información al español\n\n        RESPUESTA:\n        "

/-- The prompt f-string of `generate_llm_answer` (`api_rag_fastapi.py`
lines 146-163): fixed template with the context block and the question
interpolated. -/
def build_prompt (question : String) (context : String) : String :=
  prompt_header ++ context ++ prompt_question_label ++ question ++ prompt_instructions

/-- Outcome of the HTTP call to the LLM provider: a raised exception (network
error, timeout, or a later parse failure inside the same `try`), or a response
with a status code and the content the success path would extract
(`None` when `response.json()['choices'][0]['message']['content']` would
fail, which the surrounding `try` also turns into an exception). -/
inductive LLMHttp where
  | exn
  | resp (status_code : Nat) (parsed_content : Option String)
deriving Repr, DecidableEq

/-- Embedding of `generate_llm_answer` (`api_rag_fastapi.py` lines 136-195): `None` without
an API key; otherwise build the prompt, call the provider (modelled by `call`,
a function of the request prompt), and return the extracted content on a 200
response, `None` on an exception, a non-200 status, or a body the extraction
fails on. Totality of this function is the embedding of "never raises". -/
def generate_llm_answer (api_key : Option String) (question : String)
    (context_chunks : List FormattedResult) (call : String → LLMHttp) :
    Option String :=
  match api_key with
  | none => none
  | some _ =>
    let prompt := build_prompt question (build_llm_context context_chunks)
    match call prompt with
    | .exn => none
    | .resp status_code parsed_content =>
      if status_code = 200 then
        match parsed_content with
        | some c => some c
        | none => none
      else none

/-! ## Ingestion points (`qadrant_loader.py`, `chunk_embedding_qadrant_v2.py`) -/

/-- One point upserted into the vector index (`qadrant_loader.py` lines 58-71):
`id=i`, the embedding vector, and a payload of the chunk metadata plus the
content, an upload timestamp, and `chunk_id=i`. -/
structure Point where
  id : Nat
  vector : List ℚ
  payload_content : String
  payload_metadata : ChunkMeta
  payload_uploaded_at : String
  payload_chunk_id : Nat
deriving Repr, DecidableEq

/-- Embedding of `generate_embedding` (`embeddig.py` lines 13-23): one vector per chunk
content, in order; the external model is the `encode` parameter. -/
def generate_embedding (encode : String → List ℚ) (chunks : List Chunk) :
    List (List ℚ) :=
  (chunks.map (fun chunk => chunk.content)).map encode

/-- The point-building loop `for i, (chunk, embedding) in
enumerate(zip(chunks, embeddings))` (`qadrant_loader.py` lines 58-71, identical
in `chunk_embedding_qadrant_v2.py` lines 129-142). The wall-clock
`uploaded_at` timestamp is a parameter. -/
def build_points (chunks : List Chunk) (embeddings : List (List ℚ))
    (uploaded_at : String) : List Point :=
  ((chunks.zip embeddings).enum).map (fun ie =>
    { id := ie.1
      vector := ie.2.2
      payload_content := ie.2.1.content
      payload_metadata := ie.2.1.metadata
      payload_uploaded_at := uploaded_at
      payload_chunk_id := ie.1 })

/-! ## Health check (`api_rag_fastapi.py` lines 240-243) -/

/-- The status computation of `health_check`: first `"healthy" if
all([qdrant_connected, embedding_loaded]) else "degraded"`, then overwritten
with `"unhealthy"` whenever either flag is false. `qdrant_connected` is true
only when the client is up and the collection is present (line 224). -/
def health_status (qdrant_connected embedding_loaded : Bool) : String :=
  let status := if qdrant_connected && embedding_loaded then "healthy" else "degraded"
  if !qdrant_connected || !embedding_loaded then "unhealthy" else status

/-! ## Concrete sample data for witnesses and counterexamples -/

/-- The two-section document of the specification's scenario: chapter `"Ch1"`
with an untitled `main_content` section A and a section B titled `"Key Fact"`. -/
def example_document : Document :=
  { title := "Climate Change Basics"
    chapters :=
      [ { chapter_number := 1
          chapter_title := "Ch1"
          sections :=
            [ { section_type := "main_content"
                section_title := none
                content := "Greenhouse gases trap heat in the atmosphere"
                metadata := { word_count := 7, key_terms := ["greenhouse"] } }
            , { section_type := "note"
                section_title := some "Key Fact"
                content := "CO2 levels rose 50% since 1850"
                metadata := { word_count := 6, key_terms := ["CO2"] } } ] } ] }

/-- A concrete stored payload, used to instantiate retrieval theorems. -/
def sample_payload : Payload :=
  { content := some "Los gases de efecto invernadero atrapan calor"
    chapter_title := some "Ch1"
    section_title := some "Intro"
    section_type := some "main_content"
    word_count := some 7
    key_terms := some ["gases"]
    chapter_number := some 1
    document_title := some "Doc" }

/-- A concrete formatted result with score `-1` (cosine similarity of opposed
vectors is negative). -/
def negative_result : FormattedResult := format_result (-1) sample_payload

/-- A concrete formatted result with score `0`. -/
def zero_score_result : FormattedResult := format_result 0 sample_payload

/-- A 101-character content, longer than the preview cut-off. -/
def long_content : String := String.mk (List.replicate 101 'a')

/-- The chunks of the example document, used as concrete ingestion input. -/
def sample_chunks : List Chunk := flatten example_document

/-! ## Claim theorems -/

/-- C1: for the `/query` and `/search` operations, the threshold filter keeps
exactly the results whose score is at least `score_threshold`, and it is
applied if and only if `score_threshold > 0`: when the threshold is not
positive (in particular `0`) no result is excluded, not even one with score
`0` or below; and every successful endpoint response carries exactly the
filtered result list. -/
theorem threshold_filter_exact (score_threshold : ℚ) (results : List FormattedResult) :
    (∀ r, r ∈ apply_score_threshold score_threshold results ↔
        (r ∈ results ∧ (0 < score_threshold → score_threshold ≤ r.score)))
    ∧ (¬ 0 < score_threshold → apply_score_threshold score_threshold results = results)
    ∧ (∀ answer value, rag_query results score_threshold answer = .ok value →
        value = (answer, apply_score_threshold score_threshold results))
    ∧ (∀ value, search_only results score_threshold = .ok value →
        value = apply_score_threshold score_threshold results) := by
  refine ⟨?_, ?_, ?_, ?_⟩
  · intro r
    unfold apply_score_threshold
    by_cases h : 0 < score_threshold
    · rw [if_pos h, List.mem_filter]
      constructor
      · rintro ⟨hm, hp⟩
        exact ⟨hm, fun _ => of_decide_eq_true hp⟩
      · rintro ⟨hm, hp⟩
        exact ⟨hm, decide_eq_true (hp h)⟩
    · rw [if_neg h]
      simp [h]
  · intro h
    unfold apply_score_threshold
    rw [if_neg h]
  · intro answer value h
    unfold rag_query at h
    by_cases h1 : results.isEmpty = true
    · rw [if_pos h1] at h
      simp at h
    · rw [if_neg h1] at h
      by_cases h2 : (apply_score_threshold score_threshold results).isEmpty = true
      · rw [if_pos h2] at h
        simp at h
      · rw [if_neg h2] at h
        injection h with h'
        exact h'.symm
  · intro value h
    unfold search_only at h
    by_cases h1 : results.isEmpty = true
    · rw [if_pos h1] at h
      simp at h
    · rw [if_neg h1] at h
      by_cases h2 : (apply_score_threshold score_threshold results).isEmpty = true
      · rw [if_pos h2] at h
        simp at h
      · rw [if_neg h2] at h
        injection h with h'
        exact h'.symm

/-- Witness for C1: with threshold `0` the filter is disabled, so even a
result with score `-1` is kept. -/
theorem threshold_filter_exact_witness :
    ¬ (0:ℚ) < 0 ∧ apply_score_threshold 0 [negative_result] = [negative_result] :=
  ⟨by decide, (threshold_filter_exact 0 [negative_result]).2.1 (by decide)⟩

/-- C5: whenever the result set is empty after retrieval and threshold
filtering, both `/query` and `/search` respond 404 — never an internal
error. -/
theorem empty_after_filtering_not_found (results : List FormattedResult)
    (score_threshold : ℚ) (answer : Option String)
    (h : apply_score_threshold score_threshold results = []) :
    (rag_query results score_threshold answer).status = 404
    ∧ (search_only results score_threshold).status = 404 := by
  have h2 : (apply_score_threshold score_threshold results).isEmpty = true := by
    rw [h]; rfl
  constructor
  · unfold rag_query
    by_cases h1 : results.isEmpty = true
    · simp [h1, ApiOutcome.status]
    · simp [h1, h2, ApiOutcome.status]
  · unfold search_only
    by_cases h1 : results.isEmpty = true
    · simp [h1, ApiOutcome.status]
    · simp [h1, h2, ApiOutcome.status]

/-- Witness for C5: a single result of score `0` against threshold `1` leaves
nothing after filtering, and both endpoints answer 404. -/
theorem empty_after_filtering_not_found_witness :
    apply_score_threshold 1 [zero_score_result] = []
    ∧ (rag_query [zero_score_result] 1 none).status = 404
    ∧ (search_only [zero_score_result] 1).status = 404 :=
  ⟨by decide,
   (empty_after_filtering_not_found [zero_score_result] 1 none (by decide)).1,
   (empty_after_filtering_not_found [zero_score_result] 1 none (by decide)).2⟩

/-- C9: the health status is never `"degraded"`: it is `"healthy"` exactly
when the index is connected with the collection present and the embedding
model is loaded, and `"unhealthy"` in every other case, because the second
check overwrites the `"degraded"` assignment. -/
theorem health_status_never_degraded :
    ∀ qdrant_connected embedding_loaded : Bool,
      health_status qdrant_connected embedding_loaded ≠ "degraded"
      ∧ health_status qdrant_connected embedding_loaded =
          (if qdrant_connected && embedding_loaded then "healthy" else "unhealthy") := by
  decide

/-- C10: the content preview equals the content itself when it has at most 100
characters, and the first 100 characters followed by `"..."` otherwise; it is
a function of the content alone. -/
theorem content_preview_spec (content : String) :
    (content.length ≤ 100 → content_preview content = content)
    ∧ (100 < content.length →
        content_preview content = content.take 100 ++ "...") := by
  constructor
  · intro h
    unfold content_preview
    rw [if_neg (by omega)]
  · intro h
    unfold content_preview
    rw [if_pos (by omega)]

/-- Witness for C10: both branches at concrete contents, one short and one of
101 characters. -/
theorem content_preview_spec_witness :
    ("abc".length ≤ 100 ∧ content_preview "abc" = "abc")
    ∧ (100 < long_content.length
        ∧ content_preview long_content = long_content.take 100 ++ "...") :=
  ⟨⟨by decide, (content_preview_spec "abc").1 (by decide)⟩,
   ⟨by decide, (content_preview_spec long_content).2 (by decide)⟩⟩

/-- C4: `generate_llm_answer` never raises for generator failures: it returns
`none` when the API key is missing, when the provider call raises (error or
timeout), and when the provider returns a non-200 status; it returns a text
only when a key is configured and the call succeeds with status 200 and an
extractable body. -/
theorem generate_llm_answer_outcomes (api_key : Option String) (question : String)
    (context_chunks : List FormattedResult) (call : String → LLMHttp) :
    (api_key = none → generate_llm_answer api_key question context_chunks call = none)
    ∧ (call (build_prompt question (build_llm_context context_chunks)) = .exn →
        generate_llm_answer api_key question context_chunks call = none)
    ∧ (∀ status_code parsed_content,
        call (build_prompt question (build_llm_context context_chunks)) =
          .resp status_code parsed_content →
        status_code ≠ 200 →
        generate_llm_answer api_key question context_chunks call = none)
    ∧ (∀ a, generate_llm_answer api_key question context_chunks call = some a →
        api_key ≠ none ∧
        call (build_prompt question (build_llm_context context_chunks)) =
          .resp 200 (some a)) := by
  cases hk : api_key with
  | none => simp [generate_llm_answer]
  | some k =>
    cases hc : call (build_prompt question (build_llm_context context_chunks)) with
    | exn => simp [generate_llm_answer, hc]
    | resp status_code parsed_content =>
      by_cases hs : status_code = 200
      · subst hs
        cases parsed_content with
        | none => simp [generate_llm_answer, hc]
        | some c => simp [generate_llm_answer, hc]
      · simp [generate_llm_answer, hc, hs]

/-- Witness for C4: with no API key the answer is absent whatever the provider
would do. -/
theorem generate_llm_answer_outcomes_witness :
    generate_llm_answer none "¿Qué es el cambio climático?" [] (fun _ => LLMHttp.exn) = none :=
  (generate_llm_answer_outcomes none "¿Qué es el cambio climático?" []
    (fun _ => LLMHttp.exn)).1 rfl

/-! ### Unfolding lemmas for `String.intercalate` -/

lemma intercalate_go_cons (sep acc b : String) (l : List String) :
    String.intercalate.go acc sep (b :: l) =
      acc ++ sep ++ String.intercalate.go b sep l := by
  induction l generalizing acc b with
  | nil => rfl
  | cons c l' ih =>
    show String.intercalate.go (acc ++ sep ++ b) sep (c :: l') = _
    rw [ih (acc ++ sep ++ b) c, ih b c]
    simp [String.append_assoc]

lemma intercalate_cons_cons (sep a b : String) (l : List String) :
    String.intercalate sep (a :: b :: l) =
      a ++ sep ++ String.intercalate sep (b :: l) := by
  show String.intercalate.go a sep (b :: l) = _
  rw [intercalate_go_cons]
  rfl

lemma build_llm_context_cons (c : FormattedResult) (cs : List FormattedResult) :
    build_llm_context (c :: cs) =
      c.content ++ (if cs.isEmpty then "" else "\n\n" ++ build_llm_context cs) := by
  cases cs with
  | nil =>
    show String.intercalate "\n\n" [c.content] = c.content ++ ""
    rw [String.append_empty]
    rfl
  | cons d ds =>
    show String.intercalate "\n\n" (c.content :: d.content :: _) = _
    rw [intercalate_cons_cons]
    simp [build_llm_context, String.append_assoc]

/-- C8: the prompt sent to the generator is the fixed instruction template
(`prompt_header`, `prompt_question_label`, `prompt_instructions`, which spell
out same-language response, grounded-only answers of at most 200 words, the
explicit insufficient-information fallback phrase, and no fabrication) around
a context block that concatenates the context chunks' contents in input
order, separated by the blank-line separator `"\n\n"`. -/
theorem llm_prompt_structure (question : String) (context_chunks : List FormattedResult) :
    build_prompt question (build_llm_context context_chunks) =
      prompt_header ++ build_llm_context context_chunks ++ prompt_question_label
        ++ question ++ prompt_instructions
    ∧ build_llm_context [] = ""
    ∧ (∀ c cs, build_llm_context (c :: cs) =
        c.content ++ (if cs.isEmpty then "" else "\n\n" ++ build_llm_context cs)) :=
  ⟨rfl, rfl, fun c cs => build_llm_context_cons c cs⟩

/-- C3: `flatten` produces one chunk per section, every chunk title is
non-empty, and the titles follow the backfill rule (`spec_flatten` restates
the rule in the specification's words): an untitled `main_content` section
gets `"Introducción - "` plus the chapter title, an untitled section of any
other type gets its first four words plus `"..."`, an explicit title is kept.
On the specification's example document the two chunks are titled
`"Introducción - Ch1"` and `"Key Fact"`, both under chapter `"Ch1"`. -/
theorem flatten_title_backfill (d : Document) :
    flatten d = spec_flatten d
    ∧ (∀ c ∈ flatten d, c.metadata.section_title ≠ "")
    ∧ (flatten example_document).map (fun c => c.metadata.section_title) =
        ["Introducción - Ch1", "Key Fact"]
    ∧ (flatten example_document).map (fun c => c.metadata.chapter_title) =
        ["Ch1", "Ch1"] := by
  refine ⟨flatten_eq_spec d, ?_, by decide, by decide⟩
  intro c hc
  rw [flatten_eq_spec] at hc
  unfold spec_flatten at hc
  rw [List.mem_flatMap] at hc
  obtain ⟨ch, _, hcm⟩ := hc
  rw [List.mem_map] at hcm
  obtain ⟨s, _, rfl⟩ := hcm
  show spec_section_title ch s ≠ ""
  unfold spec_section_title
  by_cases hmiss : title_missing s.section_title = true
  · rw [if_pos hmiss]
    by_cases hmain : s.section_type == "main_content"
    · rw [if_pos hmain]
      exact append_ne_empty_left _ _ (by decide)
    · rw [if_neg hmain]
      exact append_ne_empty_right _ _ (by decide)
  · rw [if_neg hmiss]
    have : (s.section_title.getD "").isEmpty = false := by
      unfold title_missing at hmiss
      simpa using hmiss
    exact (isEmpty_false_iff _).mp this

/-- Witness for C3: the first chunk of the example document is a member of the
flattening and its title is non-empty. -/
theorem flatten_title_backfill_witness :
    ((flatten example_document).get ⟨0, by decide⟩).metadata.section_title ≠ "" :=
  (flatten_title_backfill example_document).2.1 _ (by decide)

/-- C6: `flatten` is deterministic and idempotent (re-running it on the same
document yields the identical chunk sequence), and its output order equals
document order: the chunk contents are the section contents, chapters in
sequence and sections within each chapter in sequence, one chunk per
section. -/
theorem flatten_deterministic_order_preserving (d : Document) :
    flatten d = flatten d
    ∧ (flatten d).map (fun c => c.content) =
        d.chapters.flatMap (fun ch => ch.sections.map (fun s => s.content))
    ∧ (flatten d).length = (d.chapters.map (fun ch => ch.sections.length)).sum := by
  refine ⟨rfl, ?_, ?_⟩
  · rw [flatten_eq_spec]
    unfold spec_flatten
    rw [List.map_flatMap]
    simp only [List.map_map]
    rfl
  · rw [flatten_eq_spec]
    unfold spec_flatten
    rw [List.length_flatMap]
    congr 1
    apply List.map_congr_left
    intro ch _
    simp [List.length_map]

/-- Mapping a function of the element over `List.enum` ignores the indices. -/
lemma map_over_enum {α β : Type} (l : List α) (g : α → β) :
    l.enum.map (fun ie => g ie.2) = l.map g := by
  have h1 : l.enum.map (fun ie => g ie.2) = (l.enum.map Prod.snd).map g := by
    rw [List.map_map]
    rfl
  rw [h1, List.enum_map_snd]

/-- The points built for the embedded chunks are one per chunk. -/
lemma build_points_length (encode : String → List ℚ) (chunks : List Chunk)
    (uploaded_at : String) :
    (build_points chunks (generate_embedding encode chunks) uploaded_at).length =
      chunks.length := by
  unfold build_points generate_embedding
  simp [List.length_zip, List.length_map, List.enum_length]

/-- C7: within one ingestion run the point identifiers are assigned
sequentially in chunk order — the map of `id` (and of the payload `chunk_id`)
over the built points is `0, 1, 2, ...` — hence pairwise unique; the point
contents follow the chunks in order, and the i-th point has identifier `i`. -/
theorem point_ids_sequential (encode : String → List ℚ) (chunks : List Chunk)
    (uploaded_at : String) :
    (build_points chunks (generate_embedding encode chunks) uploaded_at).map
        (fun pt => pt.id) = List.range chunks.length
    ∧ (build_points chunks (generate_embedding encode chunks) uploaded_at).map
        (fun pt => pt.payload_chunk_id) = List.range chunks.length
    ∧ (build_points chunks (generate_embedding encode chunks) uploaded_at).map
        (fun pt => pt.payload_content) = chunks.map (fun c => c.content)
    ∧ ((build_points chunks (generate_embedding encode chunks) uploaded_at).map
        (fun pt => pt.id)).Nodup
    ∧ (∀ i (h : i < (build_points chunks (generate_embedding encode chunks)
          uploaded_at).length),
        ((build_points chunks (generate_embedding encode chunks) uploaded_at).get
          ⟨i, h⟩).id = i) := by
  have hzl : (chunks.zip (generate_embedding encode chunks)).length = chunks.length := by
    unfold generate_embedding
    simp [List.length_zip, List.length_map]
  have hid : (build_points chunks (generate_embedding encode chunks) uploaded_at).map
      (fun pt => pt.id) = List.range chunks.length := by
    unfold build_points
    rw [List.map_map]
    have := List.enum_map_fst (chunks.zip (generate_embedding encode chunks))
    rw [hzl] at this
    exact this
  refine ⟨hid, ?_, ?_, ?_, ?_⟩
  · unfold build_points
    rw [List.map_map]
    have := List.enum_map_fst (chunks.zip (generate_embedding encode chunks))
    rw [hzl] at this
    exact this
  · unfold build_points
    rw [List.map_map]
    have h4 : (chunks.zip (generate_embedding encode chunks)).map (fun ce => ce.1.content) =
        chunks.map (fun c => c.content) := by
      have h5 : ((chunks.zip (generate_embedding encode chunks)).map Prod.fst).map
          (fun c => c.content) = chunks.map (fun c => c.content) := by
        rw [List.map_fst_zip]
        unfold generate_embedding
        simp [List.length_map]
      rw [← h5, List.map_map]
      rfl
    exact (map_over_enum (chunks.zip (generate_embedding encode chunks))
      (fun ce => ce.1.content)).trans h4
  · rw [hid]
    exact List.nodup_range _
  · intro i h
    unfold build_points
    simp [List.get_eq_getElem, List.getElem_map, List.getElem_enum]

/-- Witness for C7: at the example document's chunks, the point at index 1 has
identifier 1. -/
theorem point_ids_sequential_witness :
    ((build_points sample_chunks (generate_embedding (fun _ => [1]) sample_chunks)
        "2024-01-01T00:00:00").get ⟨1, by decide⟩).id = 1 :=
  (point_ids_sequential (fun _ => [1]) sample_chunks "2024-01-01T00:00:00").2.2.2.2 1
    (by decide)

/-- C2 counterexample: the claim fails at threshold `0`. With threshold `0`
the filter is disabled (`score_threshold > 0` is false), so a result whose
similarity score is negative — possible under cosine similarity — is
returned even though its score is below the threshold: here `retrieve` at
`limit = 1`, `threshold = 0` returns exactly one result of score `-1`. -/
theorem retrieve_zero_threshold_counterexample :
    (retrieve (fun _ => -1) [sample_payload] 1 0).map (fun r => r.score) = [-1]
    ∧ ((retrieve (fun _ => -1) [sample_payload] 1 0).all
        (fun r => decide ((0:ℚ) ≤ r.score))) = false := by
  decide

/-- C2 as amended: `retrieve` never returns more than `limit` results, and
whenever `score_threshold > 0` every returned result has score at least the
threshold; at threshold `0` the filter is disabled, so no score bound holds. -/
theorem retrieve_limit_and_threshold (score : Payload → ℚ) (stored : List Payload)
    (limit : Nat) (score_threshold : ℚ) :
    (retrieve score stored limit score_threshold).length ≤ limit
    ∧ (0 < score_threshold →
        ∀ r ∈ retrieve score stored limit score_threshold,
          score_threshold ≤ r.score) := by
  constructor
  · unfold retrieve apply_score_threshold search_documents query_points
    by_cases h : 0 < score_threshold
    · rw [if_pos h]
      refine le_trans (List.length_filter_le _ _) ?_
      rw [List.length_map]
      exact List.length_take_le _ _
    · rw [if_neg h]
      rw [List.length_map]
      exact List.length_take_le _ _
  · intro h r hr
    unfold retrieve apply_score_threshold at hr
    rw [if_pos h] at hr
    exact of_decide_eq_true (List.mem_filter.mp hr).2

/-- Witness for the amended C2: a positive threshold `1` with a matching
stored point — at most 2 results, all with score at least `1`. -/
theorem retrieve_limit_and_threshold_witness :
    (retrieve (fun _ => 1) [sample_payload] 2 1).length ≤ 2
    ∧ ((0:ℚ) < 1
        ∧ ∀ r ∈ retrieve (fun _ => 1) [sample_payload] 2 1, (1:ℚ) ≤ r.score) :=
  ⟨(retrieve_limit_and_threshold (fun _ => 1) [sample_payload] 2 1).1,
   by decide,
   (retrieve_limit_and_threshold (fun _ => 1) [sample_payload] 2 1).2 (by decide)⟩

end RagDemo
